import Mathlib

/-!
Verification of the SS-FV part-number calculator
(`ssfv_calculator.py`, class `SmartNumberCalculator`).

Python strings are embedded as `List Char`; Python floats are embedded as
exact rationals (`ℚ`).  Python's `float(s)` literal parser is modelled for
plain decimal numerals (optional leading `+`, digits, at most one `.`);
exotic forms Python also accepts (exponents, `inf`/`nan`, underscores,
surrounding whitespace) are treated as unparseable.  Such forms can reach
`float()` only through the free-form tail of the two-segment exact-base
code shape; every universally quantified theorem below is therefore either
stated per parse outcome (so it holds of the program whichever way an input
parses) or restricted to the code shapes in which the length token is a
regex digit run, where the model is exact.  `round(x, n)` is modelled as
exact decimal round-half-to-even, `math.ceil` as the exact ceiling.
-/

set_option maxRecDepth 8000

namespace SSFV

/-- Characters of a Python string. -/
abbrev Str := List Char

/-- Embed a Lean string literal as a character list. -/
def str (s : String) : Str := s.data

/-! ### Python string primitives -/

/-- Python `a.startswith(b)` (here: `b.startswith(a)` reads `pyStarts a b`). -/
def pyStarts (pre s : Str) : Bool := pre.isPrefixOf s

/-- Python `s.endswith(suf)`. -/
def pyEnds (suf s : Str) : Bool := suf.reverse.isPrefixOf s.reverse

/-- Python `s[-n:]` for `n > 0`: the last `n` characters (whole string when shorter). -/
def takeLastN (n : ℕ) (s : Str) : Str := (s.reverse.take n).reverse

/-- Python `s[:-n]` for `n > 0`: the string without its last `n` characters. -/
def dropLastN (n : ℕ) (s : Str) : Str := (s.reverse.drop n).reverse

/-- Whitespace characters stripped by Python `str.strip()` (ASCII range). -/
def isPySpace (c : Char) : Bool :=
  c = ' ' || c = '\t' || c = '\n' || c = '\r' || c = '\x0b' || c = '\x0c'

/-- Python `s.strip()` (ASCII whitespace). -/
def pyStrip (s : Str) : Str :=
  (((s.dropWhile isPySpace).reverse.dropWhile isPySpace)).reverse

/-- Python `s.upper()` (ASCII letters, the only ones occurring here). -/
def upperStr (s : Str) : Str := s.map Char.toUpper

/-- Python `s.split("-")`. -/
def splitDash : Str → List Str
  | [] => [[]]
  | c :: rest =>
    match splitDash rest with
    | [] => [[c]]
    | h :: t => if c = '-' then [] :: h :: t else (c :: h) :: t

/-- Python `needle in hay` for strings (substring test). -/
def containsSub (needle : Str) : Str → Bool
  | [] => needle.isEmpty
  | c :: rest => needle.isPrefixOf (c :: rest) || containsSub needle rest

/-- Python `s.replace("CM", "")` on an already upper-cased string:
removes every (non-overlapping, left-to-right) occurrence of `CM`. -/
def removeCM : Str → Str
  | 'C' :: 'M' :: rest => removeCM rest
  | c :: rest => c :: removeCM rest
  | [] => []

/-! ### Numeric helpers -/

/-- Value of a string of decimal digits. -/
def digitsToNat (s : Str) : ℕ := s.foldl (fun a c => 10 * a + (c.toNat - 48)) 0

/-- Python `float(s)` restricted to plain decimal numerals (see the file
header): optional `+` sign, then digits with at most one decimal point and
at least one digit overall. -/
def pyFloat? (s : Str) : Option ℚ :=
  let t := match s with
    | '+' :: rest => rest
    | _ => s
  let ip := t.takeWhile Char.isDigit
  let rest := t.dropWhile Char.isDigit
  match rest with
  | [] => if ip.isEmpty then none else some ((digitsToNat ip : ℕ) : ℚ)
  | '.' :: fp =>
    if fp.all Char.isDigit && !(ip.isEmpty && fp.isEmpty) then
      some (((digitsToNat ip : ℕ) : ℚ) + ((digitsToNat fp : ℕ) : ℚ) / 10 ^ fp.length)
    else none
  | _ => none

/-- Source `round_up_to_sixteenth`: round up to nearest 1/16 inch,
`math.ceil(value * 16) / 16`. -/
def round_up_to_sixteenth (value : ℚ) : ℚ := (⌈value * 16⌉ : ℚ) / 16

/-- Source `round_up_to_half_feet`: `math.ceil((inches / 12) / 0.5) * 0.5`. -/
def round_up_to_half_feet (inches : ℚ) : ℚ := (⌈inches / 12 / (1 / 2)⌉ : ℚ) * (1 / 2)

/-- Source `round_up_to_minute`: `math.ceil(minutes)`. -/
def round_up_to_minute (minutes : ℚ) : ℚ := (⌈minutes⌉ : ℚ)

/-- Nearest integer, ties to even — the rounding Python's `round` uses. -/
def roundHalfEvenZ (x : ℚ) : ℤ :=
  if x - ⌊x⌋ < 1 / 2 then ⌊x⌋
  else if 1 / 2 < x - ⌊x⌋ then ⌊x⌋ + 1
  else if ⌊x⌋ % 2 = 0 then ⌊x⌋ else ⌊x⌋ + 1

/-- Python `round(x, 2)` (exact decimal half-to-even). -/
def pyRound2 (x : ℚ) : ℚ := (roundHalfEvenZ (x * 100) : ℚ) / 100

/-- Python `round(x, 3)` (exact decimal half-to-even). -/
def pyRound3 (x : ℚ) : ℚ := (roundHalfEvenZ (x * 1000) : ℚ) / 1000

/-- Decimal digits of a natural number. -/
def natDigits (n : ℕ) : Str := Nat.toDigits 10 n

/-- Decimal rendering of an integer. -/
def intToStr (i : ℤ) : Str :=
  if i < 0 then '-' :: natDigits i.natAbs else natDigits i.natAbs

/-- Python `f"{x:.0f}"`: format with 0 decimals, half-to-even. -/
def fmtF0 (x : ℚ) : Str := intToStr (roundHalfEvenZ x)

/-! ### Regex models

The parser uses `re.search` with two patterns; both are modelled exactly
for those patterns. -/

/-- The optional `(?:CM|cm)` tail directly after the digit run. -/
def cmTag : Str → Str
  | 'C' :: 'M' :: _ => ['C', 'M']
  | 'c' :: 'm' :: _ => ['c', 'm']
  | _ => []

/-- First match of `re.search('(\\d+(?:CM|cm)?)', s)`: the leftmost maximal
digit run, with a directly following `CM`/`cm` kept (greedy option). -/
def reSearchLen : Str → Option Str
  | [] => none
  | c :: rest =>
    if c.isDigit then
      some ((c :: rest).takeWhile Char.isDigit ++ cmTag ((c :: rest).dropWhile Char.isDigit))
    else reSearchLen rest

/-- Trailing digit run of a string. -/
def trailingDigits (s : Str) : Str := (s.reverse.takeWhile Char.isDigit).reverse

/-- Match of `re.search('(\\d+(?:CM|cm)?)$', s)`: a nonempty trailing digit
run, possibly followed by a final `CM`/`cm`. -/
def reSearchLenEnd (s : Str) : Option Str :=
  if pyEnds (str "CM") s || pyEnds (str "cm") s then
    let run := trailingDigits (dropLastN 2 s)
    if run.isEmpty then none else some (run ++ takeLastN 2 s)
  else
    let run := trailingDigits s
    if run.isEmpty then none else some run

/-! ### Data model -/

/-- Successful result of `parse_part_number` (the returned dict, lines 246-252). -/
structure Parsed where
  size : Str
  pressure : Str
  performance : Str
  length : ℚ
  length_unit : Str
deriving DecidableEq

/-- Outcome of `parse_part_number`: the parsed dict, an `{"error": ...}` dict,
or an uncaught `ValueError` raised by `float()` in the CM branch (line 236 has
no try/except around it); `exn` carries the string passed to `float`. -/
inductive ParseOutcome where
  | ok : Parsed → ParseOutcome
  | err : Str → ParseOutcome
  | exn : Str → ParseOutcome
deriving DecidableEq

/-- Dataclass `BOMItem`. -/
structure BOMItem where
  item_number : ℕ
  part_number : Str
  value : ℚ
  unit : Str
deriving DecidableEq

/-- Dataclass `ProductionTimeItem`. -/
structure ProductionTimeItem where
  operation : Str
  time_minutes : ℚ
  operation_number : Str
deriving DecidableEq

/-- The dict returned by `process_part_number` on success (lines 473-495).
The two dict-comprehension convenience views are modelled as association
lists in iteration order (all keys are distinct for every template). -/
structure CalcResult where
  part_number : Str
  description : Str
  size : Str
  pressure : Str
  performance : Str
  length : ℚ
  length_unit : Str
  first_bom_value : ℚ
  bom_items : List BOMItem
  bom_items_simple : List (Str × ℚ)
  production_items : List ProductionTimeItem
  production_operations : List (Str × ℚ × Str)
  quantity : ℤ
  unit_price : ℚ
  total_price : ℚ
  total_production_time : ℚ
deriving DecidableEq

/-! ### Configuration tables (constructor, lines 34-138) -/

/-- Class constant `HP_ADJUSTMENT = 4.0`. -/
def HP_ADJUSTMENT : ℚ := 4.0

/-- `self.size_constants`: `(base_reduction, base_addition, convolution)` per size. -/
def size_constants (size : Str) : Option (ℚ × ℚ × ℚ) :=
  if size = str "08" then some (2 * 2.971, 2 * 0.221, 2 * 0.371)
  else if size = str "12" then some (2 * 2.973, 2 * 0.318, 2 * 0.452)
  else if size = str "16" then some (2 * 2.974, 2 * 0.4115, 2 * 0.457)
  else none

/-- Value-derivation rule of one BOM template entry (the `type` field plus
its accompanying constant). -/
inductive ValueRule where
  | length1 : ValueRule
  | const : ℚ → ValueRule
  | length1_minus : ℚ → ValueRule
  | length1_minus_times6 : ℚ → ValueRule
deriving DecidableEq

/-- One entry of a BOM template. -/
structure TemplateEntry where
  part_number : Str
  rule : ValueRule
deriving DecidableEq

/-- Template `"SS-FV08_STD"`. -/
def tmplFV08STD : List TemplateEntry :=
  [⟨str "H008", .length1⟩, ⟨str "BB003", .const 2⟩, ⟨str "HF004", .const 2⟩,
   ⟨str "CS007", .length1_minus 7⟩, ⟨str "H013", .length1_minus 3.5⟩,
   ⟨str "CF003", .const 2⟩, ⟨str "HTB-255K", .const 0.071⟩]

/-- Template `"SS-FV08_MLI"`. -/
def tmplFV08MLI : List TemplateEntry :=
  [⟨str "H008", .length1⟩, ⟨str "BB003", .const 2⟩, ⟨str "HF004", .const 2⟩,
   ⟨str "MI001", .length1_minus_times6 7⟩, ⟨str "MR001", .length1_minus_times6 7⟩,
   ⟨str "CS010", .length1_minus 7⟩, ⟨str "H016", .length1_minus 3.5⟩,
   ⟨str "CF009", .const 2⟩, ⟨str "HTB-255K", .const 0.071⟩]

/-- Template `"SS-FV12_STD"`. -/
def tmplFV12STD : List TemplateEntry :=
  [⟨str "H011", .length1⟩, ⟨str "BB004", .const 2⟩, ⟨str "HF005", .const 2⟩,
   ⟨str "CS010", .length1_minus 7⟩, ⟨str "H016", .length1_minus 3.5⟩,
   ⟨str "CF004", .const 2⟩, ⟨str "HTB-255K", .const 0.071⟩]

/-- Template `"SS-FV12_MLI"`. -/
def tmplFV12MLI : List TemplateEntry :=
  [⟨str "H011", .length1⟩, ⟨str "BB004", .const 2⟩, ⟨str "HF005", .const 2⟩,
   ⟨str "MI002", .length1_minus_times6 7⟩, ⟨str "MR002", .length1_minus_times6 7⟩,
   ⟨str "CS010", .length1_minus 7⟩, ⟨str "H022", .length1_minus 3.5⟩,
   ⟨str "CF010", .const 2⟩, ⟨str "HTB-255K", .const 0.071⟩]

/-- Template `"SS-FV16_STD"`. -/
def tmplFV16STD : List TemplateEntry :=
  [⟨str "H014", .length1⟩, ⟨str "BB005", .const 2⟩, ⟨str "HF006", .const 2⟩,
   ⟨str "CS010", .length1_minus 7⟩, ⟨str "H019", .length1_minus 3.5⟩,
   ⟨str "CF005", .const 2⟩, ⟨str "HTB-255K", .const 0.071⟩]

/-- Template `"SS-FV16_MLI"`. -/
def tmplFV16MLI : List TemplateEntry :=
  [⟨str "H014", .length1⟩, ⟨str "BB005", .const 2⟩, ⟨str "HF006", .const 2⟩,
   ⟨str "MI003", .length1_minus_times6 7⟩, ⟨str "MR003", .length1_minus_times6 7⟩,
   ⟨str "CS010", .length1_minus 7⟩, ⟨str "H022", .length1_minus 3.5⟩,
   ⟨str "CF011", .const 2⟩, ⟨str "HTB-255K", .const 0.071⟩]

/-- `self.bom_templates` (dict lookup by key). -/
def bom_templates (key : Str) : Option (List TemplateEntry) :=
  if key = str "SS-FV08_STD" then some tmplFV08STD
  else if key = str "SS-FV08_MLI" then some tmplFV08MLI
  else if key = str "SS-FV12_STD" then some tmplFV12STD
  else if key = str "SS-FV12_MLI" then some tmplFV12MLI
  else if key = str "SS-FV16_STD" then some tmplFV16STD
  else if key = str "SS-FV16_MLI" then some tmplFV16MLI
  else none

/-- `self.pricing_formulas`: `(base_price, price_per_foot)` per key. -/
def pricing_formulas (key : Str) : Option (ℚ × ℚ) :=
  if key = str "SS-FV08_STD" then some (137.33, 37.09)
  else if key = str "SS-FV08_MLI" then some (147.61, 52.62)
  else if key = str "SS-FV12_STD" then some (147.89, 44.32)
  else if key = str "SS-FV12_MLI" then some (160.94, 62.7)
  else if key = str "SS-FV16_STD" then some (151.40, 50.62)
  else if key = str "SS-FV16_MLI" then some (163.65, 68.23)
  else none

/-- The f-string key `f"SS-FV{size}_{performance}"`. -/
def bomKey (size performance : Str) : Str :=
  str "SS-FV" ++ size ++ str "_" ++ performance

/-! ### parse_part_number (lines 140-252) -/

/-- Size detection, lines 152-159. -/
def detectSize (t : Str) : Option Str :=
  if pyStarts (str "SS-FV8") t then some (str "08")
  else if pyStarts (str "SS-FV12") t then some (str "12")
  else if pyStarts (str "SS-FV16") t then some (str "16")
  else none

/-- Performance detection, lines 161-178: special 4-character suffix codes
first, then the single trailing digit; returns `(performance, suffix)`. -/
def detectPerformance (t : Str) : Option (Str × Str) :=
  if pyEnds (str "0424") t || pyEnds (str "0660") t || pyEnds (str "0663") t then
    some (str "MLI", takeLastN 4 t)
  else if pyEnds (str "0658") t || pyEnds (str "0662") t then
    some (str "STD", takeLastN 4 t)
  else if pyEnds (str "1") t then some (str "STD", str "1")
  else if pyEnds (str "2") t then some (str "MLI", str "2")
  else none

/-- Error message of line 178. -/
def perfErrMsg : Str :=
  str "Invalid performance indicator (must end with 1, 2, or special codes: 0424, 0660, 0663, 0658, 0662)"

/-- The tier assigned to each special 4-character suffix code by the
priority list of lines 165-170. -/
def specialTier (sfx : Str) : Str :=
  if sfx = str "0658" || sfx = str "0662" then str "STD" else str "MLI"

/-- Lines 231-252: the empty-check on `length_str`, the CM conversion and the
final `float` parse.  Note the CM branch (line 236) has no try/except, so an
unparseable value there raises (`.exn`); the plain branch (lines 240-244)
catches `ValueError` and returns the `Invalid length value` error dict. -/
def finishLength (length_str size performance : Str) : ParseOutcome :=
  if length_str.isEmpty then .err (str "Could not extract length from part number")
  else if containsSub (str "CM") (upperStr length_str) then
    match pyFloat? (removeCM (upperStr length_str)) with
    | some v => .ok ⟨size, str "HP", performance, v / 2.54, str "cm_converted"⟩
    | none => .exn (removeCM (upperStr length_str))
  else
    match pyFloat? length_str with
    | some v => .ok ⟨size, str "HP", performance, v, str "inches"⟩
    | none => .err (str "Invalid length value: " ++ length_str)

/-- Body of `parse_part_number` after `strip()` (lines 144-252). -/
def parseCore (t : Str) : ParseOutcome :=
  if pyStarts (str "SS-FV") t then
    match detectSize t with
    | none => .err (str "Unknown SS-FV size")
    | some size =>
      match detectPerformance t with
      | none => .err perfErrMsg
      | some (performance, performance_suffix) =>
        let parts := splitDash t
        if 3 ≤ parts.length then
          let length_and_performance := parts.getD 2 []
          match reSearchLen length_and_performance with
          | some length_str => finishLength length_str size performance
          | none => .err (str "Could not extract length from: " ++ length_and_performance)
        else if parts.length = 2 then
          let full_part := parts.getD 1 []
          if pyEnds performance_suffix full_part then
            let remaining := dropLastN performance_suffix.length full_part
            let expected_base := str "FV" ++ size ++ str "TN" ++ size ++ str "TN" ++ size
            if pyStarts expected_base remaining then
              let length_str := remaining.drop expected_base.length
              if length_str.isEmpty then .err (str "No length found after base pattern")
              else finishLength length_str size performance
            else
              match reSearchLenEnd remaining with
              | some length_str => finishLength length_str size performance
              | none => .err (str "Could not extract length from compressed format")
          else .err (str "Invalid compressed format")
        else .err (str "Invalid part number format - need at least 2 hyphens")
  else .err (str "Not a valid SS-FV format")

/-- `parse_part_number` (line 142 strips the input first). -/
def parse_part_number (s : String) : ParseOutcome := parseCore (pyStrip s.data)

/-! ### Dimension, BOM, pricing, description, production times -/

/-- `calculate_overall_length` (lines 267-280). -/
def calculate_overall_length (x : ℚ) : ℚ :=
  if x ≤ 48 then x * 1.005
  else if x ≤ 120 then x * 1.035
  else if x ≤ 360 then x * 1.05
  else x * 1.072

/-- `calculate_first_bom_value` (lines 282-299). -/
def calculate_first_bom_value (length : ℚ) (size : Str) : ℚ :=
  match size_constants size with
  | none => 0
  | some (base_reduction, base_addition, convolution) =>
    calculate_overall_length length - base_reduction + base_addition
      + HP_ADJUSTMENT + convolution

/-- Per-entry value and unit before the 3-decimal storage rounding
(lines 317-334). -/
def bomValue (rule : ValueRule) (first : ℚ) (quantity : ℤ) : ℚ × Str :=
  match rule with
  | .length1 => (round_up_to_sixteenth first * quantity, str "IN")
  | .const v => (v * quantity, str "EA")
  | .length1_minus k => (round_up_to_sixteenth (first - k) * quantity, str "IN")
  | .length1_minus_times6 k =>
    (round_up_to_sixteenth ((first - k) * 6) * quantity, str "IN")

/-- The per-unit value of a template entry: the quantity-independent factor,
with the sixteenth-rounding applied before any multiplication by the order
quantity (lines 317-331 with `quantity = 1`). -/
def perUnitValue (rule : ValueRule) (first : ℚ) : ℚ :=
  match rule with
  | .length1 => round_up_to_sixteenth first
  | .const v => v
  | .length1_minus k => round_up_to_sixteenth (first - k)
  | .length1_minus_times6 k => round_up_to_sixteenth ((first - k) * 6)

/-- The `for i, item_template in enumerate(template)` loop (lines 312-342);
`i` is the 0-based index. -/
def genBomAux (first : ℚ) (quantity : ℤ) : ℕ → List TemplateEntry → List BOMItem
  | _, [] => []
  | i, e :: rest =>
    ⟨i + 1, e.part_number, pyRound3 (bomValue e.rule first quantity).1,
      (bomValue e.rule first quantity).2⟩ :: genBomAux first quantity (i + 1) rest

/-- `generate_bom` (lines 301-344). -/
def generate_bom (size performance : Str) (length : ℚ) (quantity : ℤ) : List BOMItem :=
  match bom_templates (bomKey size performance) with
  | none => []
  | some template => genBomAux (calculate_first_bom_value length size) quantity 0 template

/-- `calculate_pricing` (lines 346-359), including the hardcoded fallback. -/
def calculate_pricing (length : ℚ) (size performance : Str) : ℚ :=
  match pricing_formulas (bomKey size performance) with
  | none => 137.33 + 37.09 * round_up_to_half_feet length
  | some (base_price, price_per_foot) =>
    base_price + price_per_foot * round_up_to_half_feet length

/-- `generate_description` (lines 361-371). -/
def generate_description (size pressure performance : Str) (length : ℚ) : Str :=
  let size_desc :=
    if size = str "08" then str "1/2\""
    else if size = str "12" then str "3/4\""
    else if size = str "16" then str "1\""
    else size ++ str "\""
  size_desc ++ str " " ++ pressure ++ str " " ++ performance ++ str " "
    ++ fmtF0 length ++ str "\" Insulon Hose"

/-- The four HP STD operations (lines 379-400): name, time formula, op number. -/
def stdOperations : List (Str × (ℚ → ℚ) × Str) :=
  [(str "Insulon Hose Cutting and HP Inner SA", fun l => 25 + 0.17 * (l / 12),
    str "65cba8e0011f783b09a277d6"),
   (str "Insulon Hose Assembly", fun l => 15 + 0.44 * (l / 12),
    str "65cb9b47bd03e2f47a349719"),
   (str "Insulon Hose Thermal Test", fun l => 7.5 + 0.09 * (l / 12),
    str "65cb9d4cbd03e2f47a349796"),
   (str "Insulon Hose QC and Laser Mark", fun l => 10 + 0.083 * (l / 12),
    str "65cba2babd03e2f47a3498be")]

/-- The four HP MLI operations (lines 413-434). -/
def mliOperations : List (Str × (ℚ → ℚ) × Str) :=
  [(str "Insulon Hose Cutting and HP Inner SA", fun l => 25 + 0.17 * (l / 12),
    str "65cba8e0011f783b09a277d6"),
   (str "Insulon Hose Assembly w/ MLI", fun l => 20 + 1.44 * (l / 12),
    str "65d4d84db16fca47947176d3"),
   (str "Insulon Hose Thermal Test", fun l => 7.5 + 0.09 * (l / 12),
    str "65cb9d4cbd03e2f47a349796"),
   (str "Insulon Hose QC and Laser Mark", fun l => 10 + 0.083 * (l / 12),
    str "65cba2babd03e2f47a3498be")]

/-- `calculate_production_times` (lines 373-442). -/
def calculate_production_times (performance : Str) (length : ℚ) : List ProductionTimeItem :=
  if performance = str "STD" then
    stdOperations.map (fun op => ⟨op.1, round_up_to_minute (op.2.1 length), op.2.2⟩)
  else if performance = str "MLI" then
    mliOperations.map (fun op => ⟨op.1, round_up_to_minute (op.2.1 length), op.2.2⟩)
  else []

/-! ### process_part_number (lines 444-498) -/

/-- The message built by the `except Exception` handler of
`process_part_number` (line 498) when `float()` raised in the parser:
`"Error processing part number: "` followed by the `ValueError` text, which
quotes the offending literal with CPython's repr —
`could not convert string to float: <repr>`.  The repr is modelled as
single-quoting the literal, which is exact for payloads free of quote,
backslash and unprintable characters (such as the `"A"` occurring in the
theorems below); `Char.ofNat 39` is the single-quote character. -/
def procErrMsg (bad : Str) : Str :=
  str "Error processing part number: could not convert string to float: "
    ++ (Char.ofNat 39 :: bad ++ [Char.ofNat 39])

/-- The success-path result assembly (lines 452-495). -/
def assembleResult (s : String) (quantity : ℤ) (p : Parsed) : CalcResult :=
  let bom_items := generate_bom p.size p.performance p.length quantity
  let production_items := calculate_production_times p.performance p.length
  let unit_price := calculate_pricing p.length p.size p.performance
  let total_price := unit_price * quantity
  let first_bom_value :=
    if bom_items.isEmpty then 0
    else round_up_to_sixteenth (calculate_first_bom_value p.length p.size)
  { part_number := s.data
    description := generate_description p.size p.pressure p.performance p.length
    size := p.size
    pressure := p.pressure
    performance := p.performance
    length := p.length
    length_unit := p.length_unit
    first_bom_value := pyRound3 first_bom_value
    bom_items := bom_items
    bom_items_simple := bom_items.map (fun b => (b.part_number, b.value))
    production_items := production_items
    production_operations :=
      production_items.map (fun it => (it.operation, it.time_minutes, it.operation_number))
    quantity := quantity
    unit_price := pyRound2 unit_price
    total_price := pyRound2 total_price
    total_production_time := (production_items.map (fun it => it.time_minutes)).sum }

/-- Outcome of `process_part_number`: the assembled dict or an
`{"error": ...}` dict.  There is no exception constructor — the whole body
runs inside `try/except Exception`, so nothing propagates to the caller. -/
inductive ProcOutcome where
  | ok : CalcResult → ProcOutcome
  | error : Str → ProcOutcome
deriving DecidableEq

/-- The `.ok` payload, when present. -/
def ProcOutcome.result? : ProcOutcome → Option CalcResult
  | .ok r => some r
  | .error _ => none

/-- `process_part_number`: parse errors are passed through unchanged, the
exception raised by the CM-branch `float()` is caught by the outer
`try/except` and wrapped, and on success the full record is assembled. -/
def process_part_number (s : String) (quantity : ℤ) : ProcOutcome :=
  match parse_part_number s with
  | .err m => .error m
  | .exn bad => .error (procErrMsg bad)
  | .ok p => .ok (assembleResult s quantity p)

/-! ### General lemmas -/

theorem pyFloat?_nonneg {s : Str} {v : ℚ} (h : pyFloat? s = some v) : 0 ≤ v := by
  unfold pyFloat? at h
  simp only [] at h
  split at h
  · split at h
    · exact absurd h (by simp)
    · injection h with h'
      subst h'
      positivity
  · split at h
    · injection h with h'
      subst h'
      positivity
    · exact absurd h (by simp)
  · exact absurd h (by simp)

theorem finishLength_ok {ls sz pf : Str} {p : Parsed}
    (h : finishLength ls sz pf = .ok p) :
    p.size = sz ∧ p.pressure = str "HP" ∧ p.performance = pf ∧ 0 ≤ p.length := by
  unfold finishLength at h
  split at h
  · exact absurd h (by simp)
  · split at h
    · split at h
      · injection h with h'
        subst h'
        refine ⟨rfl, rfl, rfl, ?_⟩
        have hv := pyFloat?_nonneg (by assumption)
        have : (0 : ℚ) < 2.54 := by norm_num
        positivity
      · exact absurd h (by simp)
    · split at h
      · injection h with h'
        subst h'
        exact ⟨rfl, rfl, rfl, pyFloat?_nonneg (by assumption)⟩
      · exact absurd h (by simp)

/-- Every `.ok` outcome of `parseCore` is produced by `finishLength`, with the
performance string coming from `detectPerformance`. -/
theorem parseCore_ok {t : Str} {p : Parsed} (h : parseCore t = .ok p) :
    ∃ ls sz pf sfx, detectPerformance t = some (pf, sfx)
      ∧ finishLength ls sz pf = .ok p := by
  unfold parseCore at h
  simp only [] at h
  split at h
  case isFalse => exact absurd h (by simp)
  split at h
  · exact absurd h (by simp)
  split at h
  · exact absurd h (by simp)
  next size heqsz pair pf sfx heqpf =>
    split at h
    · split at h
      · exact ⟨_, _, _, _, heqpf, h⟩
      · exact absurd h (by simp)
    · split at h
      · split at h
        · split at h
          · split at h
            · exact absurd h (by simp)
            · exact ⟨_, _, _, _, heqpf, h⟩
          · split at h
            · exact ⟨_, _, _, _, heqpf, h⟩
            · exact absurd h (by simp)
        · exact absurd h (by simp)
      · exact absurd h (by simp)

/-- The outer family check must have passed for any `.ok` parse. -/
theorem parseCore_ok_prefix {t : Str} {p : Parsed} (h : parseCore t = .ok p) :
    pyStarts (str "SS-FV") t = true := by
  unfold parseCore at h
  simp only [] at h
  split at h
  · assumption
  · exact absurd h (by simp)

theorem splitDash_ne_nil (s : Str) : splitDash s ≠ [] := by
  induction s with
  | nil => simp [splitDash]
  | cons c rest ih =>
    unfold splitDash
    rcases h : splitDash rest with _ | ⟨a, t⟩
    · exact absurd h ih
    · dsimp only
      split <;> simp

theorem splitDash_cons_ne {c : Char} (hc : c ≠ '-') (rest : Str) :
    (splitDash (c :: rest)).length = (splitDash rest).length := by
  rcases h : splitDash rest with _ | ⟨a, t⟩
  · exact absurd h (splitDash_ne_nil rest)
  · conv_lhs => unfold splitDash
    rw [h]
    simp [if_neg hc]

theorem splitDash_cons_dash (rest : Str) : splitDash ('-' :: rest) = [] :: splitDash rest := by
  rcases h : splitDash rest with _ | ⟨a, t⟩
  · exact absurd h (splitDash_ne_nil rest)
  · conv_lhs => unfold splitDash
    rw [h]
    simp

theorem pyStarts_iff {p s : Str} : pyStarts p s = true ↔ p <+: s := by
  simpa [pyStarts] using List.isPrefixOf_iff_prefix

theorem pyEnds_iff {p s : Str} : pyEnds p s = true ↔ p <:+ s := by
  rw [pyEnds, List.isPrefixOf_iff_prefix, List.reverse_prefix]

/-- A string starting with the family prefix contains a hyphen, so the dash
split has at least two segments. -/
theorem splitDash_ge_two {t : Str} (h : pyStarts (str "SS-FV") t = true) :
    2 ≤ (splitDash t).length := by
  obtain ⟨u, hu⟩ := pyStarts_iff.mp h
  have he : str "SS-FV" ++ u = 'S' :: 'S' :: '-' :: 'F' :: 'V' :: u := rfl
  rw [← hu, he, splitDash_cons_ne (by decide), splitDash_cons_ne (by decide),
    splitDash_cons_dash]
  have := List.length_pos.mpr (splitDash_ne_nil ('F' :: 'V' :: u))
  simp only [List.length_cons]
  omega

/-- A 4-character suffix claim is the same as the last-4-characters value. -/
theorem takeLastN_eq_of_pyEnds {sfx s : Str} (h : pyEnds sfx s = true)
    (hlen : sfx.length = 4) : takeLastN 4 s = sfx := by
  have hsuf : sfx <:+ s := pyEnds_iff.mp h
  have hpre : sfx.reverse <+: s.reverse := List.reverse_prefix.mpr hsuf
  have : sfx.reverse = s.reverse.take 4 := by
    have := List.prefix_iff_eq_take.mp hpre
    simpa [hlen] using this
  rw [takeLastN, ← this, List.reverse_reverse]

theorem pyEnds_of_takeLastN {sfx s : Str} (h : takeLastN 4 s = sfx)
    (hlen : sfx.length = 4) : pyEnds sfx s = true := by
  rw [pyEnds_iff]
  rw [← List.reverse_prefix]
  have hrev : s.reverse.take 4 = sfx.reverse := by
    rw [takeLastN] at h
    rw [← h, List.reverse_reverse]
  rw [← hrev]
  exact List.take_prefix 4 s.reverse

theorem takeLastN_length_le (n : ℕ) (s : Str) : (takeLastN n s).length ≤ n := by
  simp [takeLastN]

/-- Distinct 4-character suffixes exclude each other. -/
theorem pyEnds_false_of_takeLastN_ne {sfx c s : Str} (h : takeLastN 4 s = sfx)
    (hc : c.length = 4) (hne : sfx ≠ c) : pyEnds c s = false := by
  by_contra hcontra
  have : pyEnds c s = true := by
    revert hcontra
    cases pyEnds c s <;> simp
  exact hne ((takeLastN_eq_of_pyEnds this hc).symm.trans h).symm

/-! ### Rounding lemmas -/

theorem roundHalfEvenZ_intCast (z : ℤ) : roundHalfEvenZ (z : ℚ) = z := by
  unfold roundHalfEvenZ
  rw [Int.floor_intCast]
  rw [if_pos]
  rw [sub_self]
  norm_num

/-- Values with an exact 3-decimal representation are fixed by `round(x, 3)`. -/
theorem pyRound3_fix {x : ℚ} (h : ∃ z : ℤ, x * 1000 = (z : ℚ)) : pyRound3 x = x := by
  obtain ⟨z, hz⟩ := h
  unfold pyRound3
  rw [hz, roundHalfEvenZ_intCast]
  rw [div_eq_iff (by norm_num : (1000 : ℚ) ≠ 0)]
  linarith

/-- Sixteenth-rounded values doubled have exact 3-decimal representations. -/
theorem pyRound3_sixteenth_double (f : ℚ) :
    pyRound3 (round_up_to_sixteenth f * 2) = round_up_to_sixteenth f * 2 := by
  apply pyRound3_fix
  refine ⟨⌈f * 16⌉ * 125, ?_⟩
  rw [round_up_to_sixteenth]
  push_cast
  ring

/-! ### Stripping preserves a trailing suffix whose last character is not
whitespace -/

theorem pyStrip_ends {s sfx : Str} {p : Parsed}
    (hok : parseCore (pyStrip s) = .ok p)
    (hlen : sfx.length = 4)
    (hlast : ∃ d r, sfx.reverse = d :: r ∧ isPySpace d = false)
    (hends : pyEnds sfx s = true) :
    pyEnds sfx (pyStrip s) = true := by
  obtain ⟨d, r, hrev, hd⟩ := hlast
  have hpre5 : pyStarts (str "SS-FV") (pyStrip s) = true := parseCore_ok_prefix hok
  have ht5 : 5 ≤ (pyStrip s).length := by
    have := (pyStarts_iff.mp hpre5).length_le
    simpa [str] using this
  have hLsuffix : (s.dropWhile isPySpace) <:+ s := List.dropWhile_suffix isPySpace
  have htL : pyStrip s = ((s.dropWhile isPySpace).reverse.dropWhile isPySpace).reverse := rfl
  have hLne : (s.dropWhile isPySpace) ≠ [] := by
    intro hnil
    rw [htL, hnil] at ht5
    simp at ht5
  -- head of the reversed string is the non-whitespace `d`
  obtain ⟨u, hu⟩ := pyEnds_iff.mp hends
  have hsrev : s.reverse = d :: (r ++ u.reverse) := by
    rw [← hu]
    simp [hrev]
  have hLrevpre : (s.dropWhile isPySpace).reverse <+: s.reverse :=
    List.reverse_prefix.mpr hLsuffix
  obtain ⟨w, hw⟩ := hLrevpre
  rcases hLr : (s.dropWhile isPySpace).reverse with _ | ⟨d', lr⟩
  · exact absurd (List.reverse_eq_nil_iff.mp hLr) hLne
  rw [hLr, hsrev] at hw
  simp only [List.cons_append] at hw
  obtain ⟨hdd, -⟩ := List.cons.inj hw
  subst hdd
  -- the trailing strip removes nothing, so the strip keeps the whole tail
  have hstrip : pyStrip s = s.dropWhile isPySpace := by
    rw [htL, hLr, List.dropWhile_cons, if_neg (by simp [hd]), ← hLr,
      List.reverse_reverse]
  have hsfxrev : sfx.reverse <+: s.reverse := by
    rw [← hu]
    simp
  have hX : (pyStrip s).reverse <+: s.reverse := by
    rw [hstrip]
    exact List.reverse_prefix.mpr hLsuffix
  rcases List.prefix_or_prefix_of_prefix hsfxrev hX with hpre | hpre
  · rw [pyEnds_iff, ← List.reverse_prefix]
    exact hpre
  · exfalso
    have h1 := hpre.length_le
    rw [List.length_reverse, List.length_reverse, hlen] at h1
    omega

theorem detectPerformance_special {t sfx : Str}
    (h4 : takeLastN 4 t = sfx)
    (hmem : sfx ∈ [str "0424", str "0660", str "0663", str "0658", str "0662"]) :
    detectPerformance t = some (specialTier sfx, sfx) := by
  fin_cases hmem
  · have h1 := pyEnds_of_takeLastN h4 (by decide)
    unfold detectPerformance
    rw [if_pos (by simp [h1])]
    rw [h4]
    rfl
  · have h1 := pyEnds_of_takeLastN h4 (by decide)
    unfold detectPerformance
    rw [if_pos (by simp [h1])]
    rw [h4]
    rfl
  · have h1 := pyEnds_of_takeLastN h4 (by decide)
    unfold detectPerformance
    rw [if_pos (by simp [h1])]
    rw [h4]
    rfl
  · have h1 := pyEnds_of_takeLastN h4 (by decide)
    have hf1 := pyEnds_false_of_takeLastN_ne h4 (by decide)
      (by decide : str "0658" ≠ str "0424")
    have hf2 := pyEnds_false_of_takeLastN_ne h4 (by decide)
      (by decide : str "0658" ≠ str "0660")
    have hf3 := pyEnds_false_of_takeLastN_ne h4 (by decide)
      (by decide : str "0658" ≠ str "0663")
    unfold detectPerformance
    rw [if_neg (by simp [hf1, hf2, hf3]), if_pos (by simp [h1])]
    rw [h4]
    rfl
  · have h1 := pyEnds_of_takeLastN h4 (by decide)
    have hf1 := pyEnds_false_of_takeLastN_ne h4 (by decide)
      (by decide : str "0662" ≠ str "0424")
    have hf2 := pyEnds_false_of_takeLastN_ne h4 (by decide)
      (by decide : str "0662" ≠ str "0660")
    have hf3 := pyEnds_false_of_takeLastN_ne h4 (by decide)
      (by decide : str "0662" ≠ str "0663")
    unfold detectPerformance
    rw [if_neg (by simp [hf1, hf2, hf3]), if_pos (by simp [h1])]
    rw [h4]
    rfl

/-- A successful parse returns as `performance` exactly the string chosen by
`detectPerformance` on the stripped input. -/
theorem parseCore_performance {t : Str} {p : Parsed} (h : parseCore t = .ok p) :
    ∃ sfx, detectPerformance t = some (p.performance, sfx) := by
  obtain ⟨ls, sz, pf, sfx, hdp, hfin⟩ := parseCore_ok h
  obtain ⟨-, -, hperf, -⟩ := finishLength_ok hfin
  exact ⟨sfx, by rw [hdp, hperf]⟩

/-- Two strings differing at an index inside the first stay different after
appending to the first. -/
theorem append_ne_of_getElem {A B : Str} (i : ℕ) (hi : i < A.length)
    (hne : A[i]? ≠ B[i]?) (ls : Str) : A ++ ls ≠ B := by
  intro h
  have hc := congrArg (fun l : Str => l[i]?) h
  simp only [] at hc
  rw [List.getElem?_append_left hi] at hc
  exact hne hc

theorem finishLength_no_hyphen_error (ls sz pf : Str) :
    finishLength ls sz pf
      ≠ .err (str "Invalid part number format - need at least 2 hyphens") := by
  intro h
  unfold finishLength at h
  split at h
  · exact absurd (ParseOutcome.err.inj h) (by decide)
  · split at h
    · split at h
      · exact absurd h (by simp)
      · exact absurd h (by simp)
    · split at h
      · exact absurd h (by simp)
      · exact absurd (ParseOutcome.err.inj h)
          (append_ne_of_getElem 8 (by decide) (by decide) ls)

/-- The fewer-than-two-segments branch of the parser is dead code: its error
message is never produced. -/
theorem parseCore_no_hyphen_error (t : Str) :
    parseCore t
      ≠ .err (str "Invalid part number format - need at least 2 hyphens") := by
  intro h
  unfold parseCore at h
  simp only [] at h
  split at h
  case isFalse => exact absurd (ParseOutcome.err.inj h) (by decide)
  next hpre =>
    split at h
    · exact absurd (ParseOutcome.err.inj h) (by decide)
    · split at h
      · exact absurd (ParseOutcome.err.inj h) (by decide)
      · split at h
        · split at h
          · exact absurd h (finishLength_no_hyphen_error _ _ _)
          · exact absurd (ParseOutcome.err.inj h)
              (append_ne_of_getElem 0 (by decide) (by decide) _)
        · split at h
          · split at h
            · split at h
              · split at h
                · exact absurd (ParseOutcome.err.inj h) (by decide)
                · exact absurd h (finishLength_no_hyphen_error _ _ _)
              · split at h
                · exact absurd h (finishLength_no_hyphen_error _ _ _)
                · exact absurd (ParseOutcome.err.inj h) (by decide)
            · exact absurd (ParseOutcome.err.inj h) (by decide)
          · next h3 h2 =>
            have hge := splitDash_ge_two hpre
            have := ParseOutcome.err.inj h
            omega

/-! ### Claims -/

/-- C2, counterexample: the code `"SS-FV8-0-1"` parses successfully with
`length = 0`, refuting the claimed invariant `length > 0`. -/
theorem C2_counterexample : ∃ p : Parsed,
    parse_part_number "SS-FV8-0-1" = .ok p ∧ ¬ 0 < p.length :=
  ⟨⟨str "08", str "HP", str "STD", 0, str "inches"⟩,
    by with_unfolding_all rfl, by norm_num⟩

/-- C2, amended: for every code with at least three hyphen-separated
segments (the standard shapes — after the parser's `strip()`), a successful
parse has a nonnegative `length` field.  Strict positivity fails (length 0
parses, see the counterexample), and in those shapes the length token is a
digit run produced by the regex, so only decimal numerals ever reach
`float()`; only the two-segment compressed format can pass `float()` a
free-form tail (where Python also accepts non-numeral spellings such as
`nan`, for which no ordering bound holds at all). -/
theorem C2_amended_nonneg (s : String) (p : Parsed)
    (hseg : 3 ≤ (splitDash (pyStrip s.data)).length)
    (h : parse_part_number s = .ok p) : 0 ≤ p.length := by
  obtain ⟨ls, sz, pf, sfx, -, hfin⟩ := parseCore_ok h
  exact (finishLength_ok hfin).2.2.2

/-- C2, witness: the amended theorem applied to the four-segment code
`"SS-FV8-60-1"`. -/
theorem C2_witness :
    0 ≤ (Parsed.mk (str "08") (str "HP") (str "STD") 60 (str "inches")).length :=
  C2_amended_nonneg "SS-FV8-60-1" _ (by decide) (by with_unfolding_all rfl)

/-- C3: for every successfully parsed code whose trailing four characters are
one of the special suffix codes, the performance tier is the one assigned to
that suffix by `specialTier` (0424/0660/0663 ↦ MLI, 0658/0662 ↦ STD),
regardless of the final single digit — the 4-character check has priority, so
in particular a code ending 0662 parses as STD, not MLI. -/
theorem C3_special_suffix_priority (s : String) (p : Parsed) (sfx : Str)
    (hok : parse_part_number s = .ok p)
    (h4 : takeLastN 4 s.data = sfx)
    (hmem : sfx ∈ [str "0424", str "0660", str "0663", str "0658", str "0662"]) :
    p.performance = specialTier sfx := by
  have hok' : parseCore (pyStrip s.data) = .ok p := hok
  have hlen : sfx.length = 4 := by fin_cases hmem <;> decide
  have hlast : ∃ d r, sfx.reverse = d :: r ∧ isPySpace d = false := by
    fin_cases hmem <;> exact ⟨_, _, rfl, by decide⟩
  have hends : pyEnds sfx s.data = true := pyEnds_of_takeLastN h4 hlen
  have hendst : pyEnds sfx (pyStrip s.data) = true :=
    pyStrip_ends hok' hlen hlast hends
  have h4t : takeLastN 4 (pyStrip s.data) = sfx := takeLastN_eq_of_pyEnds hendst hlen
  obtain ⟨sfx', hdp⟩ := parseCore_performance hok'
  have hcomb := hdp.symm.trans (detectPerformance_special h4t hmem)
  injection hcomb with h'
  exact (Prod.ext_iff.mp h').1

/-- C3, witness: `"SS-FV8-60-0662"` ends with the special suffix 0662 (and
with the digit 2), and parses as STD. -/
theorem C3_witness :
    (Parsed.mk (str "08") (str "HP") (str "STD") 60 (str "inches")).performance
      = specialTier (str "0662") :=
  C3_special_suffix_priority "SS-FV8-60-0662" _ (str "0662")
    (by with_unfolding_all rfl) (by decide) (by decide)

/-- C10: the parser's fewer-than-two-segments error branch is unreachable —
the error is returned for no input string, because every code passing the
family-prefix check contains a hyphen and so splits into at least two
segments. -/
theorem C10_unreachable :
    (∀ s : String, parse_part_number s
        ≠ .err (str "Invalid part number format - need at least 2 hyphens"))
    ∧ (∀ t : Str, pyStarts (str "SS-FV") t = true → 2 ≤ (splitDash t).length) :=
  ⟨fun s => parseCore_no_hyphen_error (pyStrip s.data), fun _ => splitDash_ge_two⟩

/-- C10, witness: the segment bound applied to a concrete family-prefixed
string. -/
theorem C10_witness : 2 ≤ (splitDash (str "SS-FV8-60-1")).length :=
  C10_unreachable.2 (str "SS-FV8-60-1") (by decide)

/-! ### BOM scaling lemmas -/

theorem bomValue_fst (rule : ValueRule) (first : ℚ) (q : ℤ) :
    (bomValue rule first q).1 = perUnitValue rule first * q := by
  cases rule <;> rfl

theorem genBomAux_map_value (first : ℚ) (q : ℤ) (i : ℕ) (tpl : List TemplateEntry) :
    (genBomAux first q i tpl).map (fun b => b.value)
      = tpl.map (fun e => pyRound3 ((bomValue e.rule first q).1)) := by
  induction tpl generalizing i with
  | nil => rfl
  | cons e rest ih => simp [genBomAux, ih]

/-- Every `constant`-type value in the six templates is 2 or 0.071. -/
theorem bom_templates_const {key : Str} {tpl : List TemplateEntry}
    (ht : bom_templates key = some tpl) :
    ∀ e ∈ tpl, ∀ c : ℚ, e.rule = .const c → c = 2 ∨ c = 0.071 := by
  unfold bom_templates at ht
  repeat' split at ht
  all_goals
    first
    | exact Option.noConfusion ht
    | (injection ht with ht'
       subst ht'
       intro e he c hc
       fin_cases he <;>
         first
         | exact ValueRule.noConfusion hc
         | (injection hc with hv
            exact Or.inl hv.symm)
         | (injection hc with hv
            exact Or.inr hv.symm))

theorem pyRound3_const_double {c : ℚ} (hc : c = 2 ∨ c = 0.071) :
    pyRound3 (c * 2) = 2 * pyRound3 (c * 1) := by
  rcases hc with rfl | rfl
  · with_unfolding_all rfl
  · with_unfolding_all rfl

/-- C4, counterexample: at size 08, STD, length 10, quantity 1 the first BOM
line stores `round(9.3125, 3) = 9.312`, which differs from the claimed
`roundUpToSixteenth(unit) × q = 9.3125` — the 3-decimal storage rounding
makes the literal claim false on odd sixteenths. -/
theorem C4_counterexample :
    ((generate_bom (str "08") (str "STD") 10 1).map (fun b => b.value))[0]?
        = some (pyRound3
            (round_up_to_sixteenth (calculate_first_bom_value 10 (str "08")) * 1))
    ∧ pyRound3 (round_up_to_sixteenth (calculate_first_bom_value 10 (str "08")) * 1)
        = 9312 / 1000
    ∧ round_up_to_sixteenth (calculate_first_bom_value 10 (str "08")) * 1 = 149 / 16
    ∧ (9312 / 1000 : ℚ) ≠ 149 / 16 :=
  ⟨by with_unfolding_all rfl, by with_unfolding_all rfl,
   by with_unfolding_all rfl, by norm_num⟩

/-- C4, amended: every generated BOM line value equals
`round(perUnitValue × q, 3)` with the sixteenth-rounding applied before the
multiplication by `q`; consequently at `q = 2` every `constant` line is
exactly double its `q = 1` value, and every `length1` line equals
`roundUpToSixteenth(unit) × 2` exactly (a multiple of 1/8 has an exact
3-decimal representation, so the storage rounding is the identity there). -/
theorem C4_amended (size performance : Str) (tpl : List TemplateEntry)
    (L : ℚ) (q : ℤ) (hq : 0 < q)
    (ht : bom_templates (bomKey size performance) = some tpl) :
    ((generate_bom size performance L q).map (fun b => b.value)
        = tpl.map (fun e =>
            pyRound3 (perUnitValue e.rule (calculate_first_bom_value L size) * q)))
    ∧ (∀ (i : ℕ) (e : TemplateEntry), tpl[i]? = some e → (∃ c, e.rule = .const c) →
        ((generate_bom size performance L 2).map (fun b => b.value))[i]?
          = ((generate_bom size performance L 1).map (fun b => 2 * b.value))[i]?)
    ∧ (∀ (i : ℕ) (e : TemplateEntry), tpl[i]? = some e → e.rule = .length1 →
        ((generate_bom size performance L 2).map (fun b => b.value))[i]?
          = some (round_up_to_sixteenth (calculate_first_bom_value L size) * 2)) := by
  have hgen : ∀ q' : ℤ, (generate_bom size performance L q').map (fun b => b.value)
      = tpl.map (fun e =>
          pyRound3 (perUnitValue e.rule (calculate_first_bom_value L size) * q')) := by
    intro q'
    unfold generate_bom
    rw [ht, genBomAux_map_value]
    simp only [bomValue_fst]
  refine ⟨hgen q, ?_, ?_⟩
  · intro i e hie hexists
    obtain ⟨c, hc⟩ := hexists
    have hcval := bom_templates_const ht e (List.getElem?_mem hie) c hc
    have h1 : (generate_bom size performance L 1).map (fun b => 2 * b.value)
        = ((generate_bom size performance L 1).map (fun b => b.value)).map
            (fun v => 2 * v) := by
      rw [List.map_map]
      rfl
    rw [hgen 2, h1, hgen 1]
    simp only [List.getElem?_map, hie, Option.map_some', Option.some.injEq, hc,
      perUnitValue]
    push_cast
    exact pyRound3_const_double hcval
  · intro i e hie hrule
    rw [hgen 2]
    simp only [List.getElem?_map, hie, Option.map_some', Option.some.injEq, hrule,
      perUnitValue]
    push_cast
    exact pyRound3_sixteenth_double _

/-- C4, witness: the amended theorem instantiated for size 08, STD,
length 60, quantity 1. -/
theorem C4_witness :
    (generate_bom (str "08") (str "STD") 60 1).map (fun b => b.value)
      = tmplFV08STD.map (fun e =>
          pyRound3 (perUnitValue e.rule (calculate_first_bom_value 60 (str "08")) * 1)) :=
  (C4_amended (str "08") (str "STD") tmplFV08STD 60 1 (by norm_num)
    (by with_unfolding_all rfl)).1

/-- C5: for every size and performance tier the unit price equals the
(base price, per-foot rate) pair for that key — the configured pair for the
six known keys, the fallback pair otherwise — times the length rounded up
to the nearest half foot via `ceil((L/12)/0.5)*0.5`; the assembled result
rounds the unit price and `unitPrice × quantity` to 2 decimals; and for size
08, STD, 60 inches, quantity 1 the assembled unit price is exactly 322.78. -/
theorem C5_pricing :
    (∀ (L : ℚ) (size performance : Str) (base_price price_per_foot : ℚ),
        pricing_formulas (bomKey size performance) = some (base_price, price_per_foot) →
        calculate_pricing L size performance
          = base_price + price_per_foot * round_up_to_half_feet L)
    ∧ (∀ (L : ℚ) (size performance : Str),
        pricing_formulas (bomKey size performance) = none →
        calculate_pricing L size performance
          = 137.33 + 37.09 * round_up_to_half_feet L)
    ∧ (∀ L : ℚ, round_up_to_half_feet L = (⌈L / 12 / (1 / 2)⌉ : ℚ) * (1 / 2))
    ∧ (∀ (s : String) (q : ℤ) (p : Parsed), parse_part_number s = .ok p →
        (process_part_number s q).result?.map (fun r => (r.unit_price, r.total_price))
          = some (pyRound2 (calculate_pricing p.length p.size p.performance),
              pyRound2 (calculate_pricing p.length p.size p.performance * (q : ℚ))))
    ∧ (process_part_number "SS-FV8-60-1" 1).result?.map (fun r => r.unit_price)
        = some 322.78 := by
  refine ⟨?_, ?_, fun L => rfl, ?_, by with_unfolding_all rfl⟩
  · intro L size performance bp ppf hp
    unfold calculate_pricing
    rw [hp]
  · intro L size performance hp
    unfold calculate_pricing
    rw [hp]
  · intro s q p hp
    have hproc : process_part_number s q = .ok (assembleResult s q p) := by
      unfold process_part_number
      rw [hp]
    rw [hproc]
    rfl

/-- C5, witness: the pricing equation at the configured key 08/STD and the
process-level rounding relation at `"SS-FV8-60-1"`. -/
theorem C5_witness :
    calculate_pricing 60 (str "08") (str "STD")
        = 137.33 + 37.09 * round_up_to_half_feet 60
    ∧ (process_part_number "SS-FV8-60-1" 1).result?.map
        (fun r => (r.unit_price, r.total_price))
        = some (pyRound2 (calculate_pricing 60 (str "08") (str "STD")),
            pyRound2 (calculate_pricing 60 (str "08") (str "STD") * ((1 : ℤ) : ℚ))) :=
  ⟨C5_pricing.1 60 (str "08") (str "STD") 137.33 37.09 (by with_unfolding_all rfl),
   C5_pricing.2.2.2.1 "SS-FV8-60-1" 1
     ⟨str "08", str "HP", str "STD", 60, str "inches"⟩ (by with_unfolding_all rfl)⟩

/-- C6: `calculate_overall_length` multiplies by 1.005 up to and including
48, by 1.035 above 48 up to and including 120, by 1.05 above 120 up to and
including 360, and by 1.072 above 360. -/
theorem C6_breakpoints (x : ℚ) :
    (x ≤ 48 → calculate_overall_length x = x * 1.005)
    ∧ (48 < x → x ≤ 120 → calculate_overall_length x = x * 1.035)
    ∧ (120 < x → x ≤ 360 → calculate_overall_length x = x * 1.05)
    ∧ (360 < x → calculate_overall_length x = x * 1.072) := by
  unfold calculate_overall_length
  refine ⟨fun h => by rw [if_pos h], fun h1 h2 => ?_, fun h1 h2 => ?_, fun h1 => ?_⟩
  · rw [if_neg (not_le.mpr h1), if_pos h2]
  · rw [if_neg (not_le.mpr (by linarith)), if_neg (not_le.mpr h1), if_pos h2]
  · rw [if_neg (not_le.mpr (by linarith)), if_neg (not_le.mpr (by linarith)),
      if_neg (not_le.mpr h1)]

/-- C6, witness: both sides of each of the three breakpoints. -/
theorem C6_witness :
    calculate_overall_length 48 = 48 * 1.005
    ∧ calculate_overall_length 48.0001 = 48.0001 * 1.035
    ∧ calculate_overall_length 120 = 120 * 1.035
    ∧ calculate_overall_length 120.0001 = 120.0001 * 1.05
    ∧ calculate_overall_length 360 = 360 * 1.05
    ∧ calculate_overall_length 360.0001 = 360.0001 * 1.072 :=
  ⟨(C6_breakpoints 48).1 (by norm_num),
   (C6_breakpoints 48.0001).2.1 (by norm_num) (by norm_num),
   (C6_breakpoints 120).2.1 (by norm_num) (by norm_num),
   (C6_breakpoints 120.0001).2.2.1 (by norm_num) (by norm_num),
   (C6_breakpoints 360).2.2.1 (by norm_num) (by norm_num),
   (C6_breakpoints 360.0001).2.2.2 (by norm_num)⟩

/-- C7: STD and MLI each yield exactly the four declared operations in
order, with time `ceil(intercept + slope × (L/12))`; any other tier yields
the empty list (not an error); and the assembled total production time is
the sum of the returned operation times. -/
theorem C7_production :
    (∀ L : ℚ, calculate_production_times (str "STD") L =
      [⟨str "Insulon Hose Cutting and HP Inner SA", (⌈(25 : ℚ) + 0.17 * (L / 12)⌉ : ℚ),
         str "65cba8e0011f783b09a277d6"⟩,
       ⟨str "Insulon Hose Assembly", (⌈(15 : ℚ) + 0.44 * (L / 12)⌉ : ℚ),
         str "65cb9b47bd03e2f47a349719"⟩,
       ⟨str "Insulon Hose Thermal Test", (⌈(7.5 : ℚ) + 0.09 * (L / 12)⌉ : ℚ),
         str "65cb9d4cbd03e2f47a349796"⟩,
       ⟨str "Insulon Hose QC and Laser Mark", (⌈(10 : ℚ) + 0.083 * (L / 12)⌉ : ℚ),
         str "65cba2babd03e2f47a3498be"⟩])
    ∧ (∀ L : ℚ, calculate_production_times (str "MLI") L =
      [⟨str "Insulon Hose Cutting and HP Inner SA", (⌈(25 : ℚ) + 0.17 * (L / 12)⌉ : ℚ),
         str "65cba8e0011f783b09a277d6"⟩,
       ⟨str "Insulon Hose Assembly w/ MLI", (⌈(20 : ℚ) + 1.44 * (L / 12)⌉ : ℚ),
         str "65d4d84db16fca47947176d3"⟩,
       ⟨str "Insulon Hose Thermal Test", (⌈(7.5 : ℚ) + 0.09 * (L / 12)⌉ : ℚ),
         str "65cb9d4cbd03e2f47a349796"⟩,
       ⟨str "Insulon Hose QC and Laser Mark", (⌈(10 : ℚ) + 0.083 * (L / 12)⌉ : ℚ),
         str "65cba2babd03e2f47a3498be"⟩])
    ∧ (∀ (performance : Str) (L : ℚ), performance ≠ str "STD" →
        performance ≠ str "MLI" → calculate_production_times performance L = [])
    ∧ (∀ (s : String) (q : ℤ),
        (process_part_number s q).result?.map (fun r => r.total_production_time)
          = (process_part_number s q).result?.map
              (fun r => (r.production_items.map (fun it => it.time_minutes)).sum)) := by
  refine ⟨fun L => rfl, fun L => rfl, ?_, ?_⟩
  · intro pf L h1 h2
    unfold calculate_production_times
    rw [if_neg h1, if_neg h2]
  · intro s q
    unfold process_part_number
    rcases hp : parse_part_number s with p | m | bad <;> rfl

/-- C7, witness: an unsupported tier yields the empty list. -/
theorem C7_witness : calculate_production_times (str "HX") 5 = [] :=
  C7_production.2.2.1 (str "HX") 5 (by decide) (by decide)

/-- C9: an unconfigured (size, performance) key does not fail — pricing
falls back to the hardcoded pair 137.33 and 37.09. -/
theorem C9_fallback_pricing (size performance : Str) (L : ℚ)
    (h : pricing_formulas (bomKey size performance) = none) :
    calculate_pricing L size performance
      = 137.33 + 37.09 * round_up_to_half_feet L := by
  unfold calculate_pricing
  rw [h]

/-- C9, witness: the fallback at the unconfigured size code 99. -/
theorem C9_witness :
    calculate_pricing 60 (str "99") (str "STD")
      = 137.33 + 37.09 * round_up_to_half_feet 60 :=
  C9_fallback_pricing (str "99") (str "STD") 60 (by decide)

/-- C1, counterexample: the claimed input `"SS-FV08-TN08-601"` does not
succeed — the size detector only accepts the spelling `SS-FV8` for size 08,
so processing returns the Unknown-SS-FV-size error record. -/
theorem C1_counterexample :
    process_part_number "SS-FV08-TN08-601" 1 = .error (str "Unknown SS-FV size") := by
  with_unfolding_all rfl

/-- C1, amended: `"SS-FV08-TN08-601"` is rejected with "Unknown SS-FV size";
the spelling the parser accepts for (size 08, STD, length 60),
`"SS-FV8-60-1"`, succeeds with size 08, performance STD, length 60, a
description containing `1/2"`, `HP`, `STD` and `60"`, and exactly 7 BOM
items (the STD size-08 template length). -/
theorem C1_amended :
    process_part_number "SS-FV08-TN08-601" 1 = .error (str "Unknown SS-FV size")
    ∧ (process_part_number "SS-FV8-60-1" 1).result?.map
        (fun r => (r.size, r.performance, r.length, r.bom_items.length,
          containsSub (str "1/2\"") r.description,
          containsSub (str "HP") r.description,
          containsSub (str "STD") r.description,
          containsSub (str "60\"") r.description))
      = some (str "08", str "STD", 60, 7, true, true, true, true) :=
  ⟨by with_unfolding_all rfl, by with_unfolding_all rfl⟩

end SSFV
